import Mathlib

/-!
Verification of `python/tvm/meta_schedule/runner/rpc_runner.py` against its
natural-language specification.

The Python module is shallowly embedded: every fallible Python call becomes a
Lean function returning `Except Exc _`; the opaque remote-execution capability
(RPCSession / Device / Module / ndarray, which live outside this repository)
is a record of abstract operations; machine floats used only as timing data
are modelled as rationals.  Definitions follow the source line by line; ghost
instrumentation (event traces) is added only where the specification itself
demands observability ("verifiable via an injected cleanup counter").
-/

set_option maxHeartbeats 1000000

/-- A Python exception value, as far as this module distinguishes them.
`str(e)` is modelled by `strExc`.  Implicit exception chaining
(`__context__`) is beyond the embedding and is noted where relevant. -/
inductive Exc where
  | attributeError (attr : String)
  | typeError (msg : String)
  | notImplementedError
  | valueError (msg : String)
  | generic (msg : String)
deriving DecidableEq, Repr

/-- Models Python `str(exception)`. -/
def strExc : Exc → String
  | .attributeError a => "NoneType object has no attribute " ++ a
  | .typeError m => m
  | .notImplementedError => "NotImplementedError"
  | .valueError m => m
  | .generic m => m

/-- The RPC connection configuration (`RPCConfig` from `runner/config.py`,
which is outside `src/`).  Only `session_timeout_sec` is read by
`rpc_runner.py`; the remaining connection fields are irrelevant to every
claim and are omitted.  The timeout is modelled as a natural number of
seconds (the Python value is a float; no claim depends on fractions). -/
structure RPCConfig where
  session_timeout_sec : Nat
deriving DecidableEq, Repr

/-- Modelled from the spec: `RPCConfig._normalized` from `runner/config.py`
(not under `src/`): configuration value objects have "no behavior beyond
normalization of optional/default values", so a missing config is replaced
by a default-constructed one. -/
def RPCConfig.normalized (rpc_config : Option RPCConfig) : RPCConfig :=
  rpc_config.getD { session_timeout_sec := 10 }

/-- The evaluator configuration (`EvaluatorConfig` from `runner/config.py`,
outside `src/`), with exactly the four fields `rpc_runner.py` reads. -/
structure EvaluatorConfig where
  number : Nat
  «repeat» : Nat
  min_repeat_ms : Nat
  enable_cpu_cache_flush : Bool
deriving DecidableEq, Repr

/-- Modelled from the spec: `EvaluatorConfig._normalized` from
`runner/config.py` (not under `src/`): a missing config is replaced by a
default-constructed one. -/
def EvaluatorConfig.normalized (evaluator_config : Option EvaluatorConfig) :
    EvaluatorConfig :=
  evaluator_config.getD { number := 3, «repeat» := 1, min_repeat_ms := 100,
                          enable_cpu_cache_flush := false }

/-- Models a Python attribute access `o.attr` on a value of an `Optional`
static type: accessing an attribute of `None` raises `AttributeError`. -/
def pyAttr {α β : Type} (o : Option α) (f : α → β) (attr : String) :
    Except Exc β :=
  match o with
  | none => .error (.attributeError attr)
  | some a => .ok (f a)

/-- One entry of the JSON-shaped argument-info list (`T_ARG_INFO_JSON_OBJ`):
the first element is the kind tag (`none` models JSON `null`); `dtype` and
`shape` model the kind-specific remaining fields, which the dispatcher in
`default_alloc_argument` unpacks only in its `"TENSOR"` arm. -/
structure ArgInfo where
  kind : Option String
  dtype : String
  shape : List Nat
deriving DecidableEq, Repr

/-- `RunnerResult` from `runner/runner.py`: a pair of optional fields, built
by `RPCRunnerFuture.result` with exactly one of them populated. -/
structure RunnerResult where
  run_secs : Option (List ℚ)
  error_msg : Option String
deriving DecidableEq, Repr

/-- The eventual outcome of `concurrent.futures.Future.result()` as observed
by `RPCRunnerFuture.result`: the worker task returned a list of timings,
raised `TimeoutError`, or raised some other exception `e` (recorded by its
`str(e)` rendering). -/
inductive FutureOutcome where
  | success (run_secs : List ℚ)
  | timeout
  | raised (msg : String)
deriving DecidableEq, Repr

/-- `RPCRunnerFuture`: the wrapped concurrent future plus the timeout taken
from the RPC config.  The wrapped future is represented by what it yields:
`FutureOutcome` when polling for a result, or the submitted task payload
when reasoning about submission. -/
structure RPCRunnerFuture (F : Type) where
  future : F
  timeout_sec : Nat
deriving DecidableEq, Repr

/-- `RPCRunnerFuture.result` (rpc_runner.py lines 67-80): catches
`TimeoutError` and every other `Exception` from the underlying future and
converts them to an error `RunnerResult`; a successful outcome becomes
`RunnerResult(run_secs, None)`.  Total by construction: no exception
escapes. -/
def RPCRunnerFuture.result (self : RPCRunnerFuture FutureOutcome) :
    RunnerResult :=
  match self.future with
  | .success run_secs => ⟨some run_secs, none⟩
  | .timeout =>
      ⟨none, some ("RPCRunner: Timeout, killed after "
        ++ toString self.timeout_sec ++ " seconds")⟩
  | .raised msg =>
      ⟨none, some ("RPCRunner: An exception occurred\n" ++ msg)⟩

/-- A lifecycle override as accepted by `RPCRunner`
(`Union[Callable, str, None]`): omitted, a registered name, or a direct
callable. -/
inductive FuncRef (F : Type) where
  | null
  | byName (name : String)
  | callable (f : F)

/-- Modelled from the spec: `get_global_func_with_default_on_worker` from
`meta_schedule/utils.py` (not under `src/`): given `None` it returns the
default, given a name it looks the function up in the worker process's
global registry and raises a resolution error when the name is not
registered, and given a callable it returns it unchanged. -/
def get_global_func_with_default_on_worker {F : Type}
    (lookup : String → Option F) (name : FuncRef F) (default : Option F) :
    Except Exc (Option F) :=
  match name with
  | .null => .ok default
  | .byName n =>
      match lookup n with
      | some f => .ok (some f)
      | none =>
          .error (.valueError
            ("Cannot find the function " ++ n ++ " on the worker process"))
  | .callable f => .ok (some f)

/-- Resolution as performed at the top of `_worker_func` (step 0), where the
default is one of the concrete default lifecycle functions and is therefore
never `None`. -/
def resolveOnWorker {F : Type} (lookup : String → Option F) (name : FuncRef F)
    (default : F) : Except Exc F :=
  match get_global_func_with_default_on_worker lookup name (some default) with
  | .error e => .error e
  | .ok (some f) => .ok f
  | .ok none => .ok default

/-- The result of one timed invocation (`ProfileResult` of the TVM runtime):
a list of per-repeat timing samples in seconds. -/
structure ProfileResult where
  results : List ℚ
deriving DecidableEq, Repr

/-- The opaque remote-execution capability of spec section 6, covering every
operation `rpc_runner.py` performs through `RPCConfig.connect_server`,
`RPCSession`, `Device`, `Module` and `ndarray` — all of which are external
to this repository.  Type parameters: `S` sessions, `D` devices, `M`
modules, `A` allocated runtime arguments. -/
structure RemoteCap (S D M A : Type) where
  connect_server : RPCConfig → Except Exc S
  session_device : S → String → Nat → Except Exc D
  upload : S → String → String → Except Exc Unit
  load_module : S → String → Except Exc M
  get_random_fill : S → Except Exc (A → Except Exc Unit)
  ndarray_empty : List Nat → String → D → Except Exc A
  entry_name : M → String
  time_evaluator : M → String → D → Nat → Nat → Nat → String →
    Except Exc (List A → Except Exc ProfileResult)
  device_sync : D → Except Exc Unit
  remove : S → String → Except Exc Unit

/-- `default_create_session` (lines 401-414): `rpc_config.connect_server()`. -/
def default_create_session {S D M A : Type} (cap : RemoteCap S D M A)
    (rpc_config : RPCConfig) : Except Exc S :=
  cap.connect_server rpc_config

/-- `default_upload_module` (lines 417-440): upload the file, then load it as
a module on the remote side. -/
def default_upload_module {S D M A : Type} (cap : RemoteCap S D M A)
    (session : S) (local_path : String) (remote_path : String) :
    Except Exc M :=
  match cap.upload session local_path remote_path with
  | .error e => .error e
  | .ok _ => cap.load_module session remote_path

/-- The inner `alloc_tensor` of `default_alloc_argument` (lines 473-476):
an empty device buffer of the given shape/dtype, filled by the remote
random-fill capability. -/
def alloc_tensor {S D M A : Type} (cap : RemoteCap S D M A) (device : D)
    (f_random_fill : A → Except Exc Unit) (dtype : String)
    (shape : List Nat) : Except Exc A :=
  match cap.ndarray_empty shape dtype device with
  | .error e => .error e
  | .ok arg =>
      match f_random_fill arg with
      | .error e => .error e
      | .ok _ => .ok arg

/-- The error produced by the dispatcher of `default_alloc_argument` on a
kind tag with no handler.  The dispatch table is
`{"TENSOR": alloc_tensor, None: alloc_fail}` consulted via
`dispatcher.get(arg_type, None)(*arg_info)`: an unknown string tag makes
`.get` return the default `None`, and calling `None` raises `TypeError`; the
tag `None` itself hits the `alloc_fail` entry, which raises
`NotImplementedError`. -/
def badKindError : Option String → Exc
  | none => .notImplementedError
  | some _ => .typeError "NoneType object is not callable"

/-- Dispatch of one ArgInfo entry on its kind tag
(`dispatcher.get(arg_type, None)(*arg_info)`, line 492). -/
def dispatchAlloc {S D M A : Type} (cap : RemoteCap S D M A) (device : D)
    (f_random_fill : A → Except Exc Unit) (a : ArgInfo) : Except Exc A :=
  match a.kind with
  | some k =>
      if k = "TENSOR" then alloc_tensor cap device f_random_fill a.dtype a.shape
      else .error (badKindError (some k))
  | none => .error (badKindError none)

/-- The inner loop of `default_alloc_argument` (lines 488-493): one ordered
argument list for one allocation repeat; the first failure aborts. -/
def allocArgsOnce {S D M A : Type} (cap : RemoteCap S D M A) (device : D)
    (f_random_fill : A → Except Exc Unit) :
    List ArgInfo → Except Exc (List A)
  | [] => .ok []
  | a :: rest =>
      match dispatchAlloc cap device f_random_fill a with
      | .error e => .error e
      | .ok arg =>
          match allocArgsOnce cap device f_random_fill rest with
          | .error e => .error e
          | .ok args => .ok (arg :: args)

/-- The outer loop of `default_alloc_argument` (lines 486-495):
`for _ in range(alloc_repeat)`. -/
def allocRepeatLoop {S D M A : Type} (cap : RemoteCap S D M A) (device : D)
    (f_random_fill : A → Except Exc Unit) (args_info : List ArgInfo) :
    Nat → Except Exc (List (List A))
  | 0 => .ok []
  | n + 1 =>
      match allocArgsOnce cap device f_random_fill args_info with
      | .error e => .error e
      | .ok args =>
          match allocRepeatLoop cap device f_random_fill args_info n with
          | .error e => .error e
          | .ok rest => .ok (args :: rest)

/-- `default_alloc_argument` (lines 443-495): fetch the remote random-fill
function (`get_global_func_on_rpc_session`, which raises when the remote
lacks it), then run the two nested allocation loops. -/
def default_alloc_argument {S D M A : Type} (cap : RemoteCap S D M A)
    (session : S) (device : D) (args_info : List ArgInfo)
    (alloc_repeat : Nat) : Except Exc (List (List A)) :=
  match cap.get_random_fill session with
  | .error e => .error e
  | .ok f_random_fill =>
      allocRepeatLoop cap device f_random_fill args_info alloc_repeat

/-- The loop of `default_run_evaluator` (lines 535-539): per argument set,
synchronize the device, invoke the timing harness, collect its samples. -/
def evalLoop {S D M A : Type} (cap : RemoteCap S D M A) (device : D)
    (evaluator : List A → Except Exc ProfileResult) :
    List (List A) → Except Exc (List (List ℚ))
  | [] => .ok []
  | args :: rest =>
      match cap.device_sync device with
      | .error e => .error e
      | .ok _ =>
          match evaluator args with
          | .error e => .error e
          | .ok profile_result =>
              match evalLoop cap device evaluator rest with
              | .error e => .error e
              | .ok repeated_costs =>
                  .ok (profile_result.results :: repeated_costs)

/-- `default_run_evaluator` (lines 498-541): build the timing harness from
the evaluator config (with the cache-flush preprocessor exactly when
`enable_cpu_cache_flush` is set), run it once per allocation repeat, and
flatten all samples in order (`itertools.chain.from_iterable`; the
`float(cost)` conversion is the identity on the rational model). -/
def default_run_evaluator {S D M A : Type} (cap : RemoteCap S D M A)
    (_session : S) (rt_mod : M) (device : D)
    (evaluator_config : EvaluatorConfig) (repeated_args : List (List A)) :
    Except Exc (List ℚ) :=
  match cap.time_evaluator rt_mod (cap.entry_name rt_mod) device
      evaluator_config.number evaluator_config.«repeat»
      evaluator_config.min_repeat_ms
      (if evaluator_config.enable_cpu_cache_flush then
        "cache_flush_cpu_non_first_arg" else "") with
  | .error e => .error e
  | .ok evaluator =>
      match evalLoop cap device evaluator repeated_args with
      | .error e => .error e
      | .ok repeated_costs => .ok repeated_costs.flatten

/-- `default_cleanup` (lines 544-560): when both the session and the remote
path were established, remove the artifact, its companion `.so` binary and
the defensive empty path, failing fast on a remote error; otherwise do
nothing.  The second component is the ghost trace of attempted
`session.remove` calls, which makes "no-op" observable. -/
def default_cleanup {S D M A : Type} (cap : RemoteCap S D M A)
    (session : Option S) (remote_path : Option String) :
    Except Exc Unit × List (S × String) :=
  match session, remote_path with
  | some s, some rp =>
      match cap.remove s rp with
      | .error e => (.error e, [(s, rp)])
      | .ok _ =>
          match cap.remove s (rp ++ ".so") with
          | .error e => (.error e, [(s, rp), (s, rp ++ ".so")])
          | .ok _ =>
              match cap.remove s "" with
              | .error e =>
                  (.error e, [(s, rp), (s, rp ++ ".so"), (s, "")])
              | .ok _ =>
                  (.ok (), [(s, rp), (s, rp ++ ".so"), (s, "")])
  | _, _ => (.ok (), [])

/-- The signature of `f_create_session` (`T_CREATE_SESSION`). -/
abbrev CreateSessionF (S : Type) := RPCConfig → Except Exc S

/-- The signature of `f_upload_module` (`T_UPLOAD_MODULE`). -/
abbrev UploadModuleF (S M : Type) := S → String → String → Except Exc M

/-- The signature of `f_alloc_argument` (`T_ALLOC_ARGUMENT`). -/
abbrev AllocArgumentF (S D A : Type) :=
  S → D → List ArgInfo → Nat → Except Exc (List (List A))

/-- The signature of `f_run_evaluator` (`T_RUN_EVALUATOR`). -/
abbrev RunEvaluatorF (S M D A : Type) :=
  S → M → D → EvaluatorConfig → List (List A) → Except Exc (List ℚ)

/-- The signature of `f_cleanup` (`T_CLEANUP`). -/
abbrev CleanupF (S : Type) := Option S → Option String → Except Exc Unit

/-- The worker process's global function registry, by lifecycle role (in TVM
a single untyped `PackedFunc` registry; split per role here so each lookup
is typed). -/
structure WorkerRegistry (S D M A : Type) where
  create_session : String → Option (CreateSessionF S)
  upload_module : String → Option (UploadModuleF S M)
  alloc_argument : String → Option (AllocArgumentF S D A)
  run_evaluator : String → Option (RunEvaluatorF S M D A)
  cleanup : String → Option (CleanupF S)

/-- Ghost trace events of one worker task: one per lifecycle call the task
makes.  The cleanup event records the arguments the cleanup function
received, playing the role of the spec's "injected cleanup counter". -/
inductive WorkerEvent (S : Type) where
  | createSession
  | deviceQuery
  | uploadModule
  | allocArgument
  | runEvaluator
  | cleanup (session : Option S) (remote_path : Option String)

/-- Whether a trace event is a cleanup invocation. -/
def isCleanupEvent {S : Type} : WorkerEvent S → Bool
  | .cleanup _ _ => true
  | _ => false

/-- `osp.split(artifact_path)[1]` (line 380): the final path component. -/
def osp_split_tail (p : String) : String :=
  (p.splitOn "/").getLastD p

/-- The body of the `with resource_handler():` block of `_worker_func`
(lines 375-397), given the five already-resolved functions: steps 1-4 in
order, threading the managed resources.  The Python locals `remote_path`
and `local_path` (lines 380-381) are inlined as `osp_split_tail
artifact_path` and `artifact_path`.  Besides the step outcome it returns
the values of the `session` and `remote_path` locals at exit — exactly
what the closed-over cleanup will see — plus the ghost event trace. -/
def worker_body {S D M A : Type} (f_create_session : CreateSessionF S)
    (f_upload_module : UploadModuleF S M)
    (f_alloc_argument : AllocArgumentF S D A)
    (f_run_evaluator : RunEvaluatorF S M D A) (cap : RemoteCap S D M A)
    (rpc_config : RPCConfig) (evaluator_config : EvaluatorConfig)
    (alloc_repeat : Nat) (artifact_path : String) (device_type : String)
    (args_info : List ArgInfo) :
    Except Exc (List ℚ) × Option S × Option String × List (WorkerEvent S) :=
  match f_create_session rpc_config with
  | .error e => (.error e, none, none, [.createSession])
  | .ok session =>
      match cap.session_device session device_type 0 with
      | .error e =>
          (.error e, some session, none, [.createSession, .deviceQuery])
      | .ok device =>
          match f_upload_module session artifact_path
              (osp_split_tail artifact_path) with
          | .error e =>
              (.error e, some session, some (osp_split_tail artifact_path),
                [.createSession, .deviceQuery, .uploadModule])
          | .ok rt_mod =>
              match f_alloc_argument session device args_info alloc_repeat with
              | .error e =>
                  (.error e, some session,
                    some (osp_split_tail artifact_path),
                    [.createSession, .deviceQuery, .uploadModule,
                      .allocArgument])
              | .ok repeated_args =>
                  match f_run_evaluator session rt_mod device
                      evaluator_config repeated_args with
                  | .error e =>
                      (.error e, some session,
                        some (osp_split_tail artifact_path),
                        [.createSession, .deviceQuery, .uploadModule,
                          .allocArgument, .runEvaluator])
                  | .ok costs =>
                      (.ok costs, some session,
                        some (osp_split_tail artifact_path),
                        [.createSession, .deviceQuery, .uploadModule,
                          .allocArgument, .runEvaluator])

/-- `RPCRunner._worker_func` (lines 333-398).  Step 0 resolves the five
lifecycle functions on the worker (a resolution failure exits before the
resource handler is entered).  The resource handler then runs the body and
— via the `try/finally` of the `contextmanager` — invokes the resolved
cleanup exactly once on the exit values of the managed locals.  Per Python
`try/finally` semantics, an exception raised by the cleanup replaces any
in-flight body exception as the propagating one (the original survives only
as implicit `__context__` chaining metadata, which the embedding does not
track).  The second component is the ghost event trace. -/
def worker_func {S D M A : Type} (reg : WorkerRegistry S D M A)
    (cap : RemoteCap S D M A) (f_create_session : FuncRef (CreateSessionF S))
    (f_upload_module : FuncRef (UploadModuleF S M))
    (f_alloc_argument : FuncRef (AllocArgumentF S D A))
    (f_run_evaluator : FuncRef (RunEvaluatorF S M D A))
    (f_cleanup : FuncRef (CleanupF S)) (rpc_config : RPCConfig)
    (evaluator_config : EvaluatorConfig) (alloc_repeat : Nat)
    (artifact_path : String) (device_type : String)
    (args_info : List ArgInfo) :
    Except Exc (List ℚ) × List (WorkerEvent S) :=
  match resolveOnWorker reg.create_session f_create_session
      (default_create_session cap) with
  | .error e => (.error e, [])
  | .ok fc =>
  match resolveOnWorker reg.upload_module f_upload_module
      (default_upload_module cap) with
  | .error e => (.error e, [])
  | .ok fu =>
  match resolveOnWorker reg.alloc_argument f_alloc_argument
      (default_alloc_argument cap) with
  | .error e => (.error e, [])
  | .ok fa =>
  match resolveOnWorker reg.run_evaluator f_run_evaluator
      (default_run_evaluator cap) with
  | .error e => (.error e, [])
  | .ok fr =>
  match resolveOnWorker reg.cleanup f_cleanup
      (fun s rp => (default_cleanup cap s rp).1) with
  | .error e => (.error e, [])
  | .ok fcl =>
      match worker_body fc fu fa fr cap rpc_config evaluator_config
          alloc_repeat artifact_path device_type args_info with
      | (body_result, session, remote_path, events) =>
          match fcl session remote_path with
          | .error cleanup_e =>
              (.error cleanup_e, events ++ [.cleanup session remote_path])
          | .ok _ =>
              (body_result, events ++ [.cleanup session remote_path])

/-- Modelled from the spec: how a finished worker task surfaces through the
pool's `concurrent.futures.Future` ("worker ... returns a list of timings
or raises → future wraps this outcome"): a raised exception is observed by
`RPCRunnerFuture.result` through its `str(e)` rendering. -/
def outcomeOfTask : Except Exc (List ℚ) → FutureOutcome
  | .ok costs => .success costs
  | .error e => .raised (strExc e)

/-- The checker submitted to the pool by `RPCRunner._sanity_check`
(lines 309-331): resolve all five configured lifecycle overrides on the
worker with default `None`; the first unresolvable name raises. -/
def sanity_check {S D M A : Type} (reg : WorkerRegistry S D M A)
    (f_create_session : FuncRef (CreateSessionF S))
    (f_upload_module : FuncRef (UploadModuleF S M))
    (f_alloc_argument : FuncRef (AllocArgumentF S D A))
    (f_run_evaluator : FuncRef (RunEvaluatorF S M D A))
    (f_cleanup : FuncRef (CleanupF S)) : Except Exc Unit :=
  match get_global_func_with_default_on_worker reg.create_session
      f_create_session none with
  | .error e => .error e
  | .ok _ =>
  match get_global_func_with_default_on_worker reg.upload_module
      f_upload_module none with
  | .error e => .error e
  | .ok _ =>
  match get_global_func_with_default_on_worker reg.alloc_argument
      f_alloc_argument none with
  | .error e => .error e
  | .ok _ =>
  match get_global_func_with_default_on_worker reg.run_evaluator
      f_run_evaluator none with
  | .error e => .error e
  | .ok _ =>
  match get_global_func_with_default_on_worker reg.cleanup f_cleanup none with
  | .error e => .error e
  | .ok _ => .ok ()

/-- Modelled from the spec: the `PopenPoolExecutor` from
`tvm/contrib/popen_pool.py` (not under `src/`), reduced to what the
orchestrator observes — its construction parameters and the worker-side
registry against which submitted callables resolve names.  Submitting the
sanity checker and blocking on its result is modelled by evaluating
`sanity_check` against this registry. -/
structure PopenPoolExecutor (S D M A : Type) where
  max_workers : Nat
  timeout : Nat
  registry : WorkerRegistry S D M A

/-- The state of a constructed `RPCRunner` (lines 215-226). -/
structure RPCRunner (S D M A : Type) where
  rpc_config : RPCConfig
  evaluator_config : EvaluatorConfig
  cooldown_sec : ℚ
  alloc_repeat : Nat
  f_create_session : FuncRef (CreateSessionF S)
  f_upload_module : FuncRef (UploadModuleF S M)
  f_alloc_argument : FuncRef (AllocArgumentF S D A)
  f_run_evaluator : FuncRef (RunEvaluatorF S M D A)
  f_cleanup : FuncRef (CleanupF S)
  pool : PopenPoolExecutor S D M A

/-- `RPCRunner.__init__` (lines 228-284): normalize both configs, store the
parameters, build the pool — whose timeout is read from the RAW
`rpc_config` parameter (line 281), an attribute access that raises
`AttributeError` when the parameter was left as `None` — and finally run
the construction-time sanity check, propagating its error. -/
def RPCRunner.init {S D M A : Type} (workerReg : WorkerRegistry S D M A)
    (rpc_config : Option RPCConfig)
    (evaluator_config : Option EvaluatorConfig) (cooldown_sec : ℚ)
    (alloc_repeat : Nat) (f_create_session : FuncRef (CreateSessionF S))
    (f_upload_module : FuncRef (UploadModuleF S M))
    (f_alloc_argument : FuncRef (AllocArgumentF S D A))
    (f_run_evaluator : FuncRef (RunEvaluatorF S M D A))
    (f_cleanup : FuncRef (CleanupF S)) (max_workers : Nat) :
    Except Exc (RPCRunner S D M A) :=
  let rpc_config_n := RPCConfig.normalized rpc_config
  let evaluator_config_n := EvaluatorConfig.normalized evaluator_config
  match pyAttr rpc_config (fun c => c.session_timeout_sec)
      "session_timeout_sec" with
  | .error e => .error e
  | .ok timeout =>
      let pool : PopenPoolExecutor S D M A :=
        { max_workers := max_workers, timeout := timeout,
          registry := workerReg }
      match sanity_check pool.registry f_create_session f_upload_module
          f_alloc_argument f_run_evaluator f_cleanup with
      | .error e => .error e
      | .ok _ =>
          .ok { rpc_config := rpc_config_n,
                evaluator_config := evaluator_config_n,
                cooldown_sec := cooldown_sec, alloc_repeat := alloc_repeat,
                f_create_session := f_create_session,
                f_upload_module := f_upload_module,
                f_alloc_argument := f_alloc_argument,
                f_run_evaluator := f_run_evaluator, f_cleanup := f_cleanup,
                pool := pool }

/-- `RunnerInput` from `runner/runner.py`: one measurement request.  The
`args_info` entries are stored in their JSON shape (`ArgInfo.as_json` is
the identity of this model). -/
structure RunnerInput where
  artifact_path : String
  device_type : String
  args_info : List ArgInfo

/-- The full argument tuple one `run` submission hands to
`RPCRunner._worker_func` (lines 290-303). -/
structure TaskPayload (S D M A : Type) where
  f_create_session : FuncRef (CreateSessionF S)
  f_upload_module : FuncRef (UploadModuleF S M)
  f_alloc_argument : FuncRef (AllocArgumentF S D A)
  f_run_evaluator : FuncRef (RunEvaluatorF S M D A)
  f_cleanup : FuncRef (CleanupF S)
  rpc_config : RPCConfig
  evaluator_config : EvaluatorConfig
  alloc_repeat : Nat
  artifact_path : String
  device_type : String
  args_info : List ArgInfo

/-- One iteration of the loop in `RPCRunner.run` (lines 288-306): submit a
task built from one request to the pool and wrap the submission in an
`RPCRunnerFuture` carrying the (normalized) session timeout.  The
submission record is the future's payload. -/
def futureOfInput {S D M A : Type} (r : RPCRunner S D M A)
    (runner_input : RunnerInput) :
    RPCRunnerFuture (TaskPayload S D M A) :=
  { future :=
      { f_create_session := r.f_create_session,
        f_upload_module := r.f_upload_module,
        f_alloc_argument := r.f_alloc_argument,
        f_run_evaluator := r.f_run_evaluator, f_cleanup := r.f_cleanup,
        rpc_config := r.rpc_config, evaluator_config := r.evaluator_config,
        alloc_repeat := r.alloc_repeat,
        artifact_path := runner_input.artifact_path,
        device_type := runner_input.device_type,
        args_info := runner_input.args_info },
    timeout_sec := r.rpc_config.session_timeout_sec }

/-- `RPCRunner.run` (lines 286-307): `results = []`, then one append per
request, in order. -/
def RPCRunner.run {S D M A : Type} (r : RPCRunner S D M A)
    (runner_inputs : List RunnerInput) :
    List (RPCRunnerFuture (TaskPayload S D M A)) :=
  runner_inputs.foldl (fun results runner_input =>
    results ++ [futureOfInput r runner_input]) []

/-- A concrete remote capability over `Nat`-coded sessions, devices, modules
and buffers, on which every remote operation succeeds; used to evaluate the
theorems on closed inputs. -/
def capW : RemoteCap Nat Nat Nat Nat :=
  { connect_server := fun _ => .ok 1,
    session_device := fun _ _ _ => .ok 0,
    upload := fun _ _ _ => .ok (),
    load_module := fun _ _ => .ok 7,
    get_random_fill := fun _ => .ok (fun _ => .ok ()),
    ndarray_empty := fun _ _ _ => .ok 3,
    entry_name := fun _ => "main",
    time_evaluator := fun _ _ _ _ _ _ _ => .ok (fun _ => .ok ⟨[0, 1, 2]⟩),
    device_sync := fun _ => .ok (),
    remove := fun _ _ => .ok () }

/-- A worker registry with no registered functions. -/
def regW : WorkerRegistry Nat Nat Nat Nat :=
  ⟨fun _ => none, fun _ => none, fun _ => none, fun _ => none, fun _ => none⟩

/-- A concrete RPC configuration. -/
def cfgW : RPCConfig := { session_timeout_sec := 10 }

/-- A concrete evaluator configuration: `number = 1`, `repeat = 3`. -/
def ecfgW : EvaluatorConfig :=
  { number := 1, «repeat» := 3, min_repeat_ms := 0,
    enable_cpu_cache_flush := false }

/-- A session-creation override that always raises. -/
def fcBoom : FuncRef (CreateSessionF Nat) :=
  .callable (fun _ => .error (.generic "session boom"))

/-- A cleanup override that always raises. -/
def fclBoom : FuncRef (CleanupF Nat) :=
  .callable (fun _ _ => .error (.generic "cleanup boom"))

theorem run_eq_map {S D M A : Type} (r : RPCRunner S D M A)
    (runner_inputs : List RunnerInput) :
    r.run runner_inputs = runner_inputs.map (futureOfInput r) := by
  have key : ∀ (l : List RunnerInput)
      (acc : List (RPCRunnerFuture (TaskPayload S D M A))),
      l.foldl (fun results runner_input =>
        results ++ [futureOfInput r runner_input]) acc
        = acc ++ l.map (futureOfInput r) := by
    intro l
    induction l with
    | nil => intro acc; simp
    | cons x xs ih => intro acc; simp [List.foldl_cons, ih]
  simpa using key runner_inputs []

theorem worker_body_no_cleanup_event {S D M A : Type}
    (fc : CreateSessionF S) (fu : UploadModuleF S M)
    (fa : AllocArgumentF S D A) (fr : RunEvaluatorF S M D A)
    (cap : RemoteCap S D M A) (rpc_config : RPCConfig)
    (evaluator_config : EvaluatorConfig) (alloc_repeat : Nat)
    (artifact_path : String) (device_type : String)
    (args_info : List ArgInfo) :
    ((worker_body fc fu fa fr cap rpc_config evaluator_config alloc_repeat
      artifact_path device_type args_info).2.2.2).countP isCleanupEvent
      = 0 := by
  unfold worker_body
  repeat' split
  all_goals rfl

theorem dispatchAlloc_of_bad_kind {S D M A : Type} (cap : RemoteCap S D M A)
    (device : D) (f_random_fill : A → Except Exc Unit) (a : ArgInfo)
    (h : a.kind ≠ some "TENSOR") :
    dispatchAlloc cap device f_random_fill a = .error (badKindError a.kind) := by
  rcases a with ⟨k, dt, sh⟩
  cases k with
  | none => rfl
  | some s =>
      have hs : s ≠ "TENSOR" := by
        intro hx
        exact h (by simp [hx])
      simp [dispatchAlloc, hs]

theorem dispatchAlloc_ok_kind {S D M A : Type} (cap : RemoteCap S D M A)
    (device : D) (f_random_fill : A → Except Exc Unit) (a : ArgInfo) (x : A)
    (h : dispatchAlloc cap device f_random_fill a = .ok x) :
    a.kind = some "TENSOR" := by
  by_contra hk
  rw [dispatchAlloc_of_bad_kind cap device f_random_fill a hk] at h
  exact Except.noConfusion h

theorem allocArgsOnce_first_bad {S D M A : Type} (cap : RemoteCap S D M A)
    (device : D) (f_random_fill : A → Except Exc Unit) (pre : List ArgInfo)
    (a : ArgInfo) (rest : List ArgInfo)
    (hpre : ∀ b ∈ pre, ∃ x, dispatchAlloc cap device f_random_fill b = .ok x)
    (ha : a.kind ≠ some "TENSOR") :
    allocArgsOnce cap device f_random_fill (pre ++ a :: rest)
      = .error (badKindError a.kind) := by
  induction pre with
  | nil =>
      simp only [List.nil_append, allocArgsOnce,
        dispatchAlloc_of_bad_kind cap device f_random_fill a ha]
  | cons b pre ih =>
      obtain ⟨x, hx⟩ := hpre b (List.mem_cons_self b pre)
      have hpre2 : ∀ c ∈ pre, ∃ x,
          dispatchAlloc cap device f_random_fill c = .ok x :=
        fun c hc => hpre c (List.mem_cons_of_mem b hc)
      simp only [List.cons_append, allocArgsOnce, hx, List.append_eq, ih hpre2]

theorem allocArgsOnce_ok_kinds {S D M A : Type} (cap : RemoteCap S D M A)
    (device : D) (f_random_fill : A → Except Exc Unit) (args_info : List ArgInfo)
    (xs : List A)
    (h : allocArgsOnce cap device f_random_fill args_info = .ok xs) :
    ∀ a ∈ args_info, a.kind = some "TENSOR" := by
  induction args_info generalizing xs with
  | nil => intro a ha; cases ha
  | cons b rest ih =>
      intro a ha
      rw [allocArgsOnce] at h
      rcases hd : dispatchAlloc cap device f_random_fill b with e | x
      · rw [hd] at h; cases h
      · rw [hd] at h
        rcases hr : allocArgsOnce cap device f_random_fill rest with e | ys
        · rw [hr] at h; cases h
        · rcases List.mem_cons.mp ha with rfl | hmem
          · exact dispatchAlloc_ok_kind cap device f_random_fill a x hd
          · exact ih ys hr a hmem

theorem allocRepeatLoop_ok_length {S D M A : Type} (cap : RemoteCap S D M A)
    (device : D) (f_random_fill : A → Except Exc Unit)
    (args_info : List ArgInfo) (alloc_repeat : Nat) (lss : List (List A))
    (h : allocRepeatLoop cap device f_random_fill args_info alloc_repeat
      = .ok lss) :
    lss.length = alloc_repeat := by
  induction alloc_repeat generalizing lss with
  | zero => rw [allocRepeatLoop] at h; cases h; rfl
  | succ n ih =>
      rw [allocRepeatLoop] at h
      rcases h1 : allocArgsOnce cap device f_random_fill args_info with e | args
      · rw [h1] at h; cases h
      · rw [h1] at h
        rcases h2 : allocRepeatLoop cap device f_random_fill args_info n
          with e | restl
        · rw [h2] at h; cases h
        · rw [h2] at h
          cases h
          simp [ih restl h2]

theorem default_alloc_argument_ok_length {S D M A : Type}
    (cap : RemoteCap S D M A) (session : S) (device : D)
    (args_info : List ArgInfo) (alloc_repeat : Nat) (lss : List (List A))
    (h : default_alloc_argument cap session device args_info alloc_repeat
      = .ok lss) :
    lss.length = alloc_repeat := by
  rw [default_alloc_argument] at h
  rcases hg : cap.get_random_fill session with e | f_random_fill
  · rw [hg] at h; cases h
  · rw [hg] at h
    exact allocRepeatLoop_ok_length cap device f_random_fill args_info
      alloc_repeat lss h

theorem evalLoop_ok {S D M A : Type} (cap : RemoteCap S D M A) (device : D)
    (evaluator : List A → Except Exc ProfileResult) (f : List A → List ℚ)
    (lss : List (List A)) (hsync : cap.device_sync device = .ok ())
    (hev : ∀ args, evaluator args = .ok ⟨f args⟩) :
    evalLoop cap device evaluator lss = .ok (lss.map f) := by
  induction lss with
  | nil => rfl
  | cons args rest ih => simp only [evalLoop, hsync, hev args, ih, List.map]

theorem sum_map_const_nat {α : Type} (l : List α) (k : Nat) :
    (l.map (fun _ => k)).sum = l.length * k := by
  induction l with
  | nil => simp
  | cons x xs ih => simp [ih, Nat.succ_mul, Nat.add_comm]

theorem append_ne_empty_left (a b : String) (ha : 0 < a.length) :
    a ++ b ≠ "" := by
  intro h
  have hl := congrArg String.length h
  rw [String.length_append, String.length_empty] at hl
  omega

/-- C1: for every execution of a worker task (`RPCRunner._worker_func`) in
which the five lifecycle functions resolve, the cleanup function is invoked
exactly once — on every exit path, including when any of create-session,
device lookup, upload-module, allocate-arguments or run-evaluator raises —
and the default cleanup is a no-op (no remote `remove` attempted, no error)
whenever the session or the remote path is still `None`. -/
theorem cleanup_invoked_exactly_once {S D M A : Type}
    (reg : WorkerRegistry S D M A) (cap : RemoteCap S D M A)
    (f_create_session : FuncRef (CreateSessionF S))
    (f_upload_module : FuncRef (UploadModuleF S M))
    (f_alloc_argument : FuncRef (AllocArgumentF S D A))
    (f_run_evaluator : FuncRef (RunEvaluatorF S M D A))
    (f_cleanup : FuncRef (CleanupF S)) (rpc_config : RPCConfig)
    (evaluator_config : EvaluatorConfig) (alloc_repeat : Nat)
    (artifact_path device_type : String) (args_info : List ArgInfo)
    (h1 : ∃ g, resolveOnWorker reg.create_session f_create_session
      (default_create_session cap) = .ok g)
    (h2 : ∃ g, resolveOnWorker reg.upload_module f_upload_module
      (default_upload_module cap) = .ok g)
    (h3 : ∃ g, resolveOnWorker reg.alloc_argument f_alloc_argument
      (default_alloc_argument cap) = .ok g)
    (h4 : ∃ g, resolveOnWorker reg.run_evaluator f_run_evaluator
      (default_run_evaluator cap) = .ok g)
    (h5 : ∃ g, resolveOnWorker reg.cleanup f_cleanup
      (fun s rp => (default_cleanup cap s rp).1) = .ok g) :
    ((worker_func reg cap f_create_session f_upload_module f_alloc_argument
      f_run_evaluator f_cleanup rpc_config evaluator_config alloc_repeat
      artifact_path device_type args_info).2).countP isCleanupEvent = 1
    ∧ ∀ (s : Option S) (rp : Option String), s = none ∨ rp = none →
        default_cleanup cap s rp = (Except.ok (), []) := by
  obtain ⟨fc, hfc⟩ := h1
  obtain ⟨fu, hfu⟩ := h2
  obtain ⟨fa, hfa⟩ := h3
  obtain ⟨fr, hfr⟩ := h4
  obtain ⟨fcl, hfcl⟩ := h5
  constructor
  · unfold worker_func
    rw [hfc, hfu, hfa, hfr, hfcl]
    dsimp only
    rcases hwb : worker_body fc fu fa fr cap rpc_config evaluator_config
      alloc_repeat artifact_path device_type args_info with ⟨b, s, rp, evs⟩
    have hevs : evs.countP isCleanupEvent = 0 := by
      have h0 := worker_body_no_cleanup_event fc fu fa fr cap rpc_config
        evaluator_config alloc_repeat artifact_path device_type args_info
      rw [hwb] at h0
      simpa using h0
    dsimp only
    cases hcl : fcl s rp <;>
      simp [List.countP_append, hevs, List.countP_cons, isCleanupEvent]
  · intro s rp h
    rcases h with rfl | rfl
    · cases rp <;> rfl
    · cases s <;> rfl

/-- C1 witness: a concrete all-default, all-successful task invokes cleanup
exactly once, and the default cleanup is a no-op when the session is
`None`. -/
theorem cleanup_invoked_exactly_once_witness :
    ((worker_func regW capW .null .null .null .null .null cfgW ecfgW 1
      "lib/mm.so" "cpu" []).2).countP isCleanupEvent = 1
    ∧ default_cleanup capW (none : Option Nat) (some "mm.so")
        = (Except.ok (), []) := by
  have h := cleanup_invoked_exactly_once regW capW .null .null .null .null
    .null cfgW ecfgW 1 "lib/mm.so" "cpu" [] ⟨_, rfl⟩ ⟨_, rfl⟩ ⟨_, rfl⟩
    ⟨_, rfl⟩ ⟨_, rfl⟩
  exact ⟨h.1, h.2 none (some "mm.so") (Or.inl rfl)⟩

/-- C2 counterexample: on timeout the error message is
`"RPCRunner: Timeout, killed after 10 seconds"`, which is not the exact
string `"Timeout, killed after 10 seconds"` the claim quotes from the
spec. -/
theorem result_timeout_message_counterexample :
    RPCRunnerFuture.result ⟨FutureOutcome.timeout, 10⟩
      = ⟨none, some "RPCRunner: Timeout, killed after 10 seconds"⟩
    ∧ (RPCRunnerFuture.result ⟨FutureOutcome.timeout, 10⟩).error_msg
        ≠ some "Timeout, killed after 10 seconds" := by
  constructor
  · decide
  · decide

/-- C2 (amended): `result()` is a total function of the underlying future's
outcome — it never raises — and on timeout it returns
`error_msg = "RPCRunner: Timeout, killed after <T> seconds"` (naming the
configured timeout duration, with an `"RPCRunner: "` prefix before the text
the spec quotes); on any other exception it returns
`error_msg = "RPCRunner: An exception occurred\n<description>"`; on success
it returns `RunnerResult(run_secs)`. -/
theorem result_never_raises (timeout_sec : Nat) (run_secs : List ℚ)
    (msg : String) :
    RPCRunnerFuture.result ⟨.success run_secs, timeout_sec⟩
      = ⟨some run_secs, none⟩
    ∧ RPCRunnerFuture.result ⟨.timeout, timeout_sec⟩
        = ⟨none, some ("RPCRunner: Timeout, killed after "
            ++ toString timeout_sec ++ " seconds")⟩
    ∧ RPCRunnerFuture.result ⟨.raised msg, timeout_sec⟩
        = ⟨none, some ("RPCRunner: An exception occurred\n" ++ msg)⟩ :=
  ⟨rfl, rfl, rfl⟩

/-- C3 counterexample: with a failing create-session and a failing cleanup,
the task propagates the cleanup exception, not the original error; and with
all lifecycle steps succeeding, a failing cleanup alone still makes the
task fail. -/
theorem cleanup_mask_counterexample :
    (worker_func regW capW fcBoom .null .null .null fclBoom cfgW ecfgW 1
      "mm.so" "cpu" []).1 = .error (.generic "cleanup boom")
    ∧ Exc.generic "cleanup boom" ≠ Exc.generic "session boom"
    ∧ (worker_func regW capW .null .null .null .null fclBoom cfgW ecfgW 1
        "mm.so" "cpu" []).1 = .error (.generic "cleanup boom") := by
  refine ⟨rfl, by decide, rfl⟩

/-- C3 (amended): whenever the resolved cleanup function raises — after a
failed lifecycle step or after full success — the cleanup exception is what
propagates out of the task, replacing any original error (which survives
only as Python exception-chaining context, invisible to `str`); the future
layer then converts it into an error `RunnerResult`, so the failure does
not escape the task as a crash. -/
theorem cleanup_failure_propagates {S D M A : Type}
    (reg : WorkerRegistry S D M A) (cap : RemoteCap S D M A)
    (f_create_session : FuncRef (CreateSessionF S))
    (f_upload_module : FuncRef (UploadModuleF S M))
    (f_alloc_argument : FuncRef (AllocArgumentF S D A))
    (f_run_evaluator : FuncRef (RunEvaluatorF S M D A))
    (f_cleanup : FuncRef (CleanupF S)) (rpc_config : RPCConfig)
    (evaluator_config : EvaluatorConfig) (alloc_repeat : Nat)
    (artifact_path device_type : String) (args_info : List ArgInfo)
    (fc : CreateSessionF S) (fu : UploadModuleF S M)
    (fa : AllocArgumentF S D A) (fr : RunEvaluatorF S M D A)
    (fcl : CleanupF S) (c : Exc) (timeout_sec : Nat)
    (hfc : resolveOnWorker reg.create_session f_create_session
      (default_create_session cap) = .ok fc)
    (hfu : resolveOnWorker reg.upload_module f_upload_module
      (default_upload_module cap) = .ok fu)
    (hfa : resolveOnWorker reg.alloc_argument f_alloc_argument
      (default_alloc_argument cap) = .ok fa)
    (hfr : resolveOnWorker reg.run_evaluator f_run_evaluator
      (default_run_evaluator cap) = .ok fr)
    (hfcl : resolveOnWorker reg.cleanup f_cleanup
      (fun s rp => (default_cleanup cap s rp).1) = .ok fcl)
    (hcl : fcl
      (worker_body fc fu fa fr cap rpc_config evaluator_config alloc_repeat
        artifact_path device_type args_info).2.1
      (worker_body fc fu fa fr cap rpc_config evaluator_config alloc_repeat
        artifact_path device_type args_info).2.2.1 = .error c) :
    (worker_func reg cap f_create_session f_upload_module f_alloc_argument
      f_run_evaluator f_cleanup rpc_config evaluator_config alloc_repeat
      artifact_path device_type args_info).1 = .error c
    ∧ RPCRunnerFuture.result
        ⟨outcomeOfTask (worker_func reg cap f_create_session f_upload_module
          f_alloc_argument f_run_evaluator f_cleanup rpc_config
          evaluator_config alloc_repeat artifact_path device_type
          args_info).1, timeout_sec⟩
        = ⟨none, some ("RPCRunner: An exception occurred\n" ++ strExc c)⟩ := by
  have hmain : (worker_func reg cap f_create_session f_upload_module
      f_alloc_argument f_run_evaluator f_cleanup rpc_config evaluator_config
      alloc_repeat artifact_path device_type args_info).1 = .error c := by
    unfold worker_func
    rw [hfc, hfu, hfa, hfr, hfcl]
    dsimp only
    rcases hwb : worker_body fc fu fa fr cap rpc_config evaluator_config
      alloc_repeat artifact_path device_type args_info with ⟨b, s, rp, evs⟩
    rw [hwb] at hcl
    dsimp only at hcl ⊢
    rw [hcl]
  refine ⟨hmain, ?_⟩
  rw [hmain]
  rfl

/-- C3 witness: the amended theorem evaluated on the concrete environment
in which every lifecycle step succeeds and the cleanup raises. -/
theorem cleanup_failure_propagates_witness :
    (worker_func regW capW .null .null .null .null fclBoom cfgW ecfgW 1
      "lib/mm.so" "cpu" []).1 = .error (.generic "cleanup boom")
    ∧ RPCRunnerFuture.result
        ⟨outcomeOfTask (worker_func regW capW .null .null .null .null
          fclBoom cfgW ecfgW 1 "lib/mm.so" "cpu" []).1, 10⟩
        = ⟨none, some ("RPCRunner: An exception occurred\n"
            ++ strExc (.generic "cleanup boom"))⟩ :=
  cleanup_failure_propagates regW capW .null .null .null .null fclBoom cfgW
    ecfgW 1 "lib/mm.so" "cpu" [] _ _ _ _ _ (.generic "cleanup boom") 10
    rfl rfl rfl rfl rfl rfl

/-- C4: constructing an `RPCRunner` whose `f_alloc_argument` override is a
name not registered in the pool's worker-side registry fails synchronously,
from the constructor itself, with the resolution error raised by the
sanity-check task the constructor submits to a worker — before any call to
`run`. -/
theorem init_unregistered_override_fails {S D M A : Type}
    (reg : WorkerRegistry S D M A) (cfg : RPCConfig)
    (evaluator_config : Option EvaluatorConfig) (cooldown_sec : ℚ)
    (alloc_repeat : Nat) (f_create_session : FuncRef (CreateSessionF S))
    (f_upload_module : FuncRef (UploadModuleF S M))
    (f_run_evaluator : FuncRef (RunEvaluatorF S M D A))
    (f_cleanup : FuncRef (CleanupF S)) (max_workers : Nat) (nm : String)
    (h1 : ∃ o, get_global_func_with_default_on_worker reg.create_session
      f_create_session none = .ok o)
    (h2 : ∃ o, get_global_func_with_default_on_worker reg.upload_module
      f_upload_module none = .ok o)
    (h3 : reg.alloc_argument nm = none) :
    RPCRunner.init reg (some cfg) evaluator_config cooldown_sec alloc_repeat
      f_create_session f_upload_module (.byName nm) f_run_evaluator
      f_cleanup max_workers
      = .error (.valueError
          ("Cannot find the function " ++ nm ++ " on the worker process")) := by
  obtain ⟨o1, h1⟩ := h1
  obtain ⟨o2, h2⟩ := h2
  have hbn : get_global_func_with_default_on_worker reg.alloc_argument
      (FuncRef.byName nm) (none : Option (AllocArgumentF S D A))
      = .error (.valueError
          ("Cannot find the function " ++ nm ++ " on the worker process")) := by
    simp [get_global_func_with_default_on_worker, h3]
  simp only [RPCRunner.init, pyAttr, sanity_check, h1, h2, hbn]

/-- C4 witness: the empty registry cannot resolve `"does_not_exist"`, so
construction fails with the resolution error. -/
theorem init_unregistered_override_fails_witness :
    RPCRunner.init regW (some cfgW) (some ecfgW) 0 1 .null .null
      (.byName "does_not_exist") .null .null 1
      = .error (.valueError
          "Cannot find the function does_not_exist on the worker process") := by
  have h := init_unregistered_override_fails regW cfgW (some ecfgW) 0 1
    .null .null .null .null 1 "does_not_exist" ⟨none, rfl⟩ ⟨none, rfl⟩ rfl
  have hmsg : ("Cannot find the function " ++ "does_not_exist"
      ++ " on the worker process")
      = "Cannot find the function does_not_exist on the worker process" := by
    decide
  rw [hmsg] at h
  exact h

/-- C5 counterexample: with `alloc_repeat = 0` the allocation loops never
run, so `default_alloc_argument` returns `ok []` without raising even
though an entry has a non-`"TENSOR"` kind tag — the claim's unconditional
"the call raises" fails. -/
theorem alloc_unsupported_kind_counterexample :
    default_alloc_argument capW 1 0 [⟨some "VECTOR", "float32", [4]⟩] 0
      = .ok []
    ∧ (⟨some "VECTOR", "float32", [4]⟩ : ArgInfo).kind ≠ some "TENSOR" := by
  exact ⟨rfl, by decide⟩

/-- C5 (amended): provided `alloc_repeat ≥ 1` (and the remote random-fill
capability resolves), a call whose argument list contains an entry with a
kind tag other than `"TENSOR"` fails at the first such entry — with the
dispatcher's lookup-miss error, and with a result independent of every
later entry (they are never attempted) — and a successful call never
contains an allocation for an unsupported kind: success implies either no
iteration ran (`alloc_repeat = 0`) or every entry was of kind
`"TENSOR"`. -/
theorem alloc_unsupported_kind_fail_fast {S D M A : Type}
    (cap : RemoteCap S D M A) :
    (∀ (session : S) (device : D) (f_random_fill : A → Except Exc Unit)
        (pre : List ArgInfo) (a : ArgInfo) (rest : List ArgInfo)
        (alloc_repeat : Nat),
        1 ≤ alloc_repeat →
        cap.get_random_fill session = .ok f_random_fill →
        (∀ b ∈ pre, ∃ x, dispatchAlloc cap device f_random_fill b = .ok x) →
        a.kind ≠ some "TENSOR" →
        default_alloc_argument cap session device (pre ++ a :: rest)
          alloc_repeat = .error (badKindError a.kind))
    ∧ (∀ (session : S) (device : D) (args_info : List ArgInfo)
        (alloc_repeat : Nat) (lss : List (List A)),
        default_alloc_argument cap session device args_info alloc_repeat
          = .ok lss →
        alloc_repeat = 0 ∨ ∀ a ∈ args_info, a.kind = some "TENSOR") := by
  constructor
  · intro session device f_random_fill pre a rest alloc_repeat hR hfrf hpre ha
    cases alloc_repeat with
    | zero => omega
    | succ n =>
        simp only [default_alloc_argument, hfrf, allocRepeatLoop,
          allocArgsOnce_first_bad cap device f_random_fill pre a rest hpre ha]
  · intro session device args_info alloc_repeat lss h
    rw [default_alloc_argument] at h
    rcases hg : cap.get_random_fill session with e | f_random_fill
    · rw [hg] at h; cases h
    · rw [hg] at h
      dsimp only at h
      cases alloc_repeat with
      | zero => exact Or.inl rfl
      | succ n =>
          refine Or.inr ?_
          rw [allocRepeatLoop] at h
          rcases h1 : allocArgsOnce cap device f_random_fill args_info
            with e | args
          · rw [h1] at h; cases h
          · exact allocArgsOnce_ok_kinds cap device f_random_fill args_info
              args h1

/-- C5 witness: with one allocation repeat, a list (tensor, vector, tensor)
fails at the vector entry with the lookup-miss `TypeError`, the later
tensor entry never attempted. -/
theorem alloc_unsupported_kind_fail_fast_witness :
    default_alloc_argument capW 1 0
      [⟨some "TENSOR", "float32", [4]⟩, ⟨some "VECTOR", "float32", [4]⟩,
        ⟨some "TENSOR", "int32", [2]⟩] 1
      = .error (.typeError "NoneType object is not callable") := by
  have h := (alloc_unsupported_kind_fail_fast capW).1 1 0 (fun _ => .ok ())
    [⟨some "TENSOR", "float32", [4]⟩] ⟨some "VECTOR", "float32", [4]⟩
    [⟨some "TENSOR", "int32", [2]⟩] 1 (by decide) rfl
    (by intro b hb; simp at hb; subst hb; exact ⟨3, rfl⟩) (by decide)
  exact h

/-- C6: if allocation succeeded for `alloc_repeat = R` repeats and each
timed invocation of the evaluator returns exactly `repeat = K` non-negative
samples, then `default_run_evaluator` succeeds with the in-order
concatenation of the per-allocation-repeat timing lists, which has exactly
`R * K` entries, all non-negative. -/
theorem evaluator_result_shape {S D M A : Type} (cap : RemoteCap S D M A)
    (session : S) (rt_mod : M) (device : D)
    (evaluator_config : EvaluatorConfig) (args_info : List ArgInfo)
    (alloc_repeat : Nat) (repeated_args : List (List A))
    (evaluator : List A → Except Exc ProfileResult) (f : List A → List ℚ)
    (halloc : default_alloc_argument cap session device args_info
      alloc_repeat = .ok repeated_args)
    (hte : cap.time_evaluator rt_mod (cap.entry_name rt_mod) device
      evaluator_config.number evaluator_config.«repeat»
      evaluator_config.min_repeat_ms
      (if evaluator_config.enable_cpu_cache_flush then
        "cache_flush_cpu_non_first_arg" else "") = .ok evaluator)
    (hsync : cap.device_sync device = .ok ())
    (hev : ∀ args, evaluator args = .ok ⟨f args⟩)
    (hlen : ∀ args, (f args).length = evaluator_config.«repeat»)
    (hpos : ∀ args, ∀ x ∈ f args, 0 ≤ x) :
    default_run_evaluator cap session rt_mod device evaluator_config
      repeated_args = .ok ((repeated_args.map f).flatten)
    ∧ ((repeated_args.map f).flatten).length
        = alloc_repeat * evaluator_config.«repeat»
    ∧ ∀ x ∈ (repeated_args.map f).flatten, 0 ≤ x := by
  refine ⟨?_, ?_, ?_⟩
  · simp only [default_run_evaluator, hte,
      evalLoop_ok cap device evaluator f repeated_args hsync hev]
  · rw [List.length_flatten]
    calc ((repeated_args.map f).map List.length).sum
        = (repeated_args.map (fun args => (f args).length)).sum := by
          rw [List.map_map]
          rfl
      _ = (repeated_args.map
            (fun _ => evaluator_config.«repeat»)).sum := by
          congr 1
          exact List.map_congr_left (fun args _ => hlen args)
      _ = repeated_args.length * evaluator_config.«repeat» :=
          sum_map_const_nat repeated_args evaluator_config.«repeat»
      _ = alloc_repeat * evaluator_config.«repeat» := by
          rw [default_alloc_argument_ok_length cap session device args_info
            alloc_repeat repeated_args halloc]
  · intro x hx
    rw [List.mem_flatten] at hx
    obtain ⟨l, hl, hxl⟩ := hx
    rw [List.mem_map] at hl
    obtain ⟨args, _, rfl⟩ := hl
    exact hpos args x hxl

/-- C6 witness: the spec's example scenario — `alloc_repeat = 2` and
`repeat = 3` produce exactly `2 * 3 = 6` flattened non-negative timing
values. -/
theorem evaluator_result_shape_witness :
    default_run_evaluator capW 1 7 0 ecfgW [[3], [3]]
      = .ok [0, 1, 2, 0, 1, 2]
    ∧ ([0, 1, 2, 0, 1, 2] : List ℚ).length = 2 * 3
    ∧ ∀ x ∈ ([0, 1, 2, 0, 1, 2] : List ℚ), 0 ≤ x := by
  have h := evaluator_result_shape capW 1 7 0 ecfgW
    [⟨some "TENSOR", "float32", [128, 128]⟩] 2 [[3], [3]]
    (fun _ => .ok ⟨[0, 1, 2]⟩) (fun _ => [0, 1, 2]) rfl rfl rfl
    (fun _ => rfl) (fun _ => rfl)
    (fun args => by
      show ∀ x ∈ ([0, 1, 2] : List ℚ), 0 ≤ x
      decide)
  exact h

/-- C7: for every list of runner inputs, `run` returns exactly one future
per input, in submission order: the i-th future is the submission built
from the i-th input. -/
theorem run_preserves_length_and_order {S D M A : Type}
    (r : RPCRunner S D M A) (runner_inputs : List RunnerInput) :
    (r.run runner_inputs).length = runner_inputs.length
    ∧ ∀ i : Nat, (r.run runner_inputs)[i]?
        = (runner_inputs[i]?).map (futureOfInput r) := by
  rw [run_eq_map]
  exact ⟨List.length_map runner_inputs (futureOfInput r),
    fun i => List.getElem?_map (futureOfInput r) runner_inputs i⟩

/-- C8: every `RunnerResult` built by `result()` has exactly one side
populated: on success `run_secs` carries the timings and `error_msg` is
`None`; on every failure `run_secs` is `None` and `error_msg` is a
non-empty description. -/
theorem runner_result_exactly_one_populated
    (fut : RPCRunnerFuture FutureOutcome) :
    (∃ t, fut.future = .success t ∧ fut.result = ⟨some t, none⟩)
    ∨ (fut.result.run_secs = none
        ∧ ∃ m, fut.result.error_msg = some m ∧ m ≠ "") := by
  rcases fut with ⟨out, timeout_sec⟩
  cases out with
  | success t => exact Or.inl ⟨t, rfl, rfl⟩
  | timeout =>
      refine Or.inr ⟨rfl, _, rfl, ?_⟩
      apply append_ne_empty_left
      rw [String.length_append]
      have h0 : 0 < ("RPCRunner: Timeout, killed after ").length := by decide
      omega
  | raised m =>
      refine Or.inr ⟨rfl, _, rfl, ?_⟩
      apply append_ne_empty_left
      decide

/-- C9: the cooldown parameter is inert — two constructions differing only
in `cooldown_sec` produce the same outcome up to the stored field itself,
and `run` (the tasks submitted, their arguments, the futures returned) does
not depend on the stored `cooldown_sec` at all. -/
theorem cooldown_sec_inert {S D M A : Type} (reg : WorkerRegistry S D M A)
    (rpc_config : Option RPCConfig)
    (evaluator_config : Option EvaluatorConfig) (c1 c2 : ℚ)
    (alloc_repeat : Nat) (f_create_session : FuncRef (CreateSessionF S))
    (f_upload_module : FuncRef (UploadModuleF S M))
    (f_alloc_argument : FuncRef (AllocArgumentF S D A))
    (f_run_evaluator : FuncRef (RunEvaluatorF S M D A))
    (f_cleanup : FuncRef (CleanupF S)) (max_workers : Nat) :
    (RPCRunner.init reg rpc_config evaluator_config c1 alloc_repeat
      f_create_session f_upload_module f_alloc_argument f_run_evaluator
      f_cleanup max_workers).map (fun r => { r with cooldown_sec := 0 })
      = (RPCRunner.init reg rpc_config evaluator_config c2 alloc_repeat
        f_create_session f_upload_module f_alloc_argument f_run_evaluator
        f_cleanup max_workers).map (fun r => { r with cooldown_sec := 0 })
    ∧ ∀ (r : RPCRunner S D M A) (c : ℚ)
        (runner_inputs : List RunnerInput),
        RPCRunner.run { r with cooldown_sec := c } runner_inputs
          = RPCRunner.run r runner_inputs := by
  constructor
  · unfold RPCRunner.init
    cases rpc_config with
    | none => rfl
    | some cfg =>
        dsimp only [pyAttr]
        rcases hs : sanity_check reg f_create_session f_upload_module
          f_alloc_argument f_run_evaluator f_cleanup with e | u <;> rfl
  · intro r c runner_inputs
    rcases r with ⟨rc, ec, cd, ar, g1, g2, g3, g4, g5, pl⟩
    rfl

/-- C10: constructing an `RPCRunner` with `rpc_config` omitted (`None`)
raises `AttributeError` during construction: the pool timeout is read from
the raw `rpc_config` parameter, not the normalized config. -/
theorem init_without_rpc_config_raises {S D M A : Type}
    (reg : WorkerRegistry S D M A)
    (evaluator_config : Option EvaluatorConfig) (cooldown_sec : ℚ)
    (alloc_repeat : Nat) (f_create_session : FuncRef (CreateSessionF S))
    (f_upload_module : FuncRef (UploadModuleF S M))
    (f_alloc_argument : FuncRef (AllocArgumentF S D A))
    (f_run_evaluator : FuncRef (RunEvaluatorF S M D A))
    (f_cleanup : FuncRef (CleanupF S)) (max_workers : Nat) :
    RPCRunner.init reg none evaluator_config cooldown_sec alloc_repeat
      f_create_session f_upload_module f_alloc_argument f_run_evaluator
      f_cleanup max_workers
      = .error (.attributeError "session_timeout_sec") := rfl
